import Mathlib

/-!
Verification model of the JobScanner repository (job-posting extraction and
parser-dispatch pipeline).

The Python source under `src/` is shallowly embedded: pure functions become
Lean functions, Python `re` operations are executed by a small backtracking
matcher (`Rx`) that mirrors the leftmost-match / priority-order semantics of
CPython's `re` module for the pattern fragments the source uses, and the
external collaborators (BeautifulSoup, spaCy, KeyBERT, Clearbit, Google
search, the Supabase store) are modelled as explicit data supplied to the
functions, exactly as §6 of the specification describes them.  Confidence
scores are modelled as rationals; every float literal of the source
(0.8, 0.9, 0.95, 0.1, 0.05, 1.2) is an exactly representable decimal and all
arithmetic performed on them in the source coincides with exact rational
arithmetic (the truncations `int(50*1.2)` etc. are checked to agree).
-/

namespace JobScanner

/-! ## Python string primitives -/

/-- Python `\s` / `str.split()` whitespace (ASCII range, as used by the repo's
inputs): space, tab, newline, carriage return, vertical tab, form feed. -/
def pyIsSpace (c : Char) : Bool :=
  c = ' ' || c = '\t' || c = '\n' || c = '\r' || c = '\x0b' || c = '\x0c'

/-- Word character for `\b` (Python `\w` over ASCII): alphanumeric or underscore. -/
def isWordChar (c : Char) : Bool := c.isAlphanum || c = '_'

/-- `needle` occurs at the start of `hay` (char lists). -/
def litPre : List Char → List Char → Option (List Char)
  | [], l => some l
  | _, [] => none
  | a :: as, b :: bs => if a = b then litPre as bs else none

/-- Python `needle in hay` substring test. -/
def hasSub (hay needle : List Char) : Bool :=
  match hay with
  | [] => (litPre needle []).isSome
  | _ :: t => (litPre needle hay).isSome || hasSub t needle

/-- Python `needle in hay` on strings. -/
def strHas (hay needle : String) : Bool := hasSub hay.toList needle.toList

/-- Python truthiness of an optional string: `None` and `""` are falsy. -/
def pyTruthy (o : Option String) : Bool := o.getD "" ≠ ""

/-- Split a char list at every char satisfying `p`, keeping empty segments
(the behaviour of Python `str.split(sep)` for one separator). -/
def splitCharsBy (p : Char → Bool) : List Char → List Char → List (List Char)
  | [], acc => [acc.reverse]
  | c :: rest, acc =>
    if p c then acc.reverse :: splitCharsBy p rest []
    else splitCharsBy p rest (c :: acc)

/-- Python `str.split(sep)` for a single-character separator. -/
def pySplitOnChar (sep : Char) (s : String) : List String :=
  (splitCharsBy (fun c => c = sep) s.toList []).map String.mk

/-- Python `str.split()` with no argument: split on whitespace runs, no empties. -/
def pySplit (s : String) : List String :=
  ((splitCharsBy pyIsSpace s.toList []).map String.mk).filter (fun w => w ≠ "")

/-- Python `sep.join(parts)`. -/
def joinSep (sep : String) : List String → String
  | [] => ""
  | [x] => x
  | x :: y :: rest => x ++ sep ++ joinSep sep (y :: rest)

/-- Python `str.strip()` (whitespace strip from both ends). -/
def pyStrip (s : String) : String :=
  let l := s.toList.dropWhile (fun c => pyIsSpace c)
  String.mk (l.reverse.dropWhile (fun c => pyIsSpace c)).reverse

/-- Python `str.lower()` (ASCII). -/
def pyLower (s : String) : String := String.mk (s.toList.map Char.toLower)

/-- Python `str.title()`: a letter is upper-cased when the previous character
is not a letter, lower-cased otherwise. -/
def pyTitleAux : Bool → List Char → List Char
  | _, [] => []
  | prevAlpha, c :: cs =>
    let c2 := if c.isAlpha then (if prevAlpha then c.toLower else c.toUpper) else c
    c2 :: pyTitleAux c.isAlpha cs

def pyTitle (s : String) : String := String.mk (pyTitleAux false s.toList)

/-! ## A small backtracking regex engine

Models the CPython `re` fragments used by the repository: literals
(optionally case-insensitive), single-character classes, class `*`/`+`
(greedy) and `+?` (lazy), sequencing, ordered alternation, greedy `?`,
numbered capture groups, `^` (with/without MULTILINE), `$` (no MULTILINE) and
`\b`.  `runRx` enumerates the engine states in exactly CPython's backtracking
priority order, so taking the head of the list at the leftmost matching
position reproduces `re.search`. -/

inductive Rx where
  | eps : Rx
  | lit : List Char → Bool → Rx
  | cls : (Char → Bool) → Rx
  | seq : Rx → Rx → Rx
  | alt : Rx → Rx → Rx
  | opt : Rx → Rx
  | star : (Char → Bool) → Rx
  | plus : (Char → Bool) → Rx
  | lazyPlus : (Char → Bool) → Rx
  | group : Nat → Rx → Rx
  | bol : Bool → Rx
  | eol : Rx
  | wb : Rx

/-- Captured groups: group number paired with the captured characters. -/
def Caps := List (Nat × List Char)

/-- Previous character after consuming `consumed` (for `^`/`\b` checks). -/
def stepPrev (pv : Option Char) (consumed : List Char) : Option Char :=
  match consumed.getLast? with
  | some c => some c
  | none => pv

/-- Case-(in)sensitive literal comparison; a case-insensitive literal is
stored lower-cased and compared against the lowered input. -/
def litCmp (cs : List Char) (ci : Bool) (xs : List Char) : Bool :=
  cs.length = xs.length &&
    (cs.zip xs).all (fun p => if ci then p.1 = p.2.toLower else p.1 = p.2)

/-- All engine states reachable by matching `r` at the head of `l`, in
backtracking priority order (first = preferred).  A state is
(previous char, remaining input, captures). -/
def runRx : Rx → Option Char → List Char → Caps → List (Option Char × List Char × Caps)
  | .eps, pv, l, cp => [(pv, l, cp)]
  | .lit cs ci, pv, l, cp =>
    if litCmp cs ci (l.take cs.length) then
      [(stepPrev pv (l.take cs.length), l.drop cs.length, cp)]
    else []
  | .cls p, _pv, l, cp =>
    match l with
    | c :: rest => if p c then [(some c, rest, cp)] else []
    | [] => []
  | .seq a b, pv, l, cp =>
    (runRx a pv l cp).flatMap (fun st => runRx b st.1 st.2.1 st.2.2)
  | .alt a b, pv, l, cp => runRx a pv l cp ++ runRx b pv l cp
  | .opt a, pv, l, cp => runRx a pv l cp ++ [(pv, l, cp)]
  | .star p, pv, l, cp =>
    let k := (l.takeWhile p).length
    (List.range (k + 1)).map (fun j =>
      let n := k - j
      (stepPrev pv (l.take n), l.drop n, cp))
  | .plus p, pv, l, cp =>
    let k := (l.takeWhile p).length
    (List.range k).map (fun j =>
      let n := k - j
      (stepPrev pv (l.take n), l.drop n, cp))
  | .lazyPlus p, pv, l, cp =>
    let k := (l.takeWhile p).length
    (List.range k).map (fun j =>
      let n := j + 1
      (stepPrev pv (l.take n), l.drop n, cp))
  | .group n a, pv, l, cp =>
    (runRx a pv l cp).map (fun st =>
      (st.1, st.2.1, (n, l.take (l.length - st.2.1.length)) :: st.2.2))
  | .bol ml, pv, l, cp =>
    if pv = none || (ml && pv = some '\n') then [(pv, l, cp)] else []
  | .eol, pv, l, cp =>
    if l.isEmpty || l = ['\n'] then [(pv, l, cp)] else []
  | .wb, pv, l, cp =>
    let pw := match pv with | some c => isWordChar c | none => false
    let nw := match l.head? with | some c => isWordChar c | none => false
    if pw ≠ nw then [(pv, l, cp)] else []

/-- Try to match `r` anchored at the current position; on success return the
remaining input and the captures (group 0 = whole match). -/
def searchAt (r : Rx) (pv : Option Char) (l : List Char) :
    Option (List Char × Caps) :=
  match runRx (.group 0 r) pv l [] with
  | [] => none
  | st :: _ => some (st.2.1, st.2.2)

/-- `re.search`: leftmost match, returning its captures. -/
def rxSearch (r : Rx) (pv : Option Char) (l : List Char) : Option Caps :=
  match searchAt r pv l, l with
  | some res, _ => some res.2
  | none, [] => none
  | none, c :: t => rxSearch r (some c) t

def reSearch (r : Rx) (s : String) : Option Caps := rxSearch r none s.toList

/-- `match.group(n)`: `none` when the group did not participate. -/
def capGet (cp : Caps) (n : Nat) : Option String :=
  (cp.find? (fun p => p.1 = n)).map (fun p => String.mk p.2)

/-- `re.findall` worker: scan left to right, collect captures of each
non-overlapping match, continue after the match end (advancing one character
past an empty match, as CPython does).  Fuel bounds the recursion; it is
initialised to `length + 1`, enough for any input. -/
def rxFindAux (r : Rx) : Nat → Option Char → List Char → List Caps
  | 0, _, _ => []
  | Nat.succ fuel, pv, l =>
    match searchAt r pv l with
    | some (rest, cp) =>
      if rest.length = l.length then
        match l with
        | [] => [cp]
        | c :: t => cp :: rxFindAux r fuel (some c) t
      else cp :: rxFindAux r fuel (stepPrev pv (l.take (l.length - rest.length))) rest
    | none =>
      match l with
      | [] => []
      | c :: t => rxFindAux r fuel (some c) t

def reFindall (r : Rx) (s : String) : List Caps :=
  rxFindAux r (s.toList.length + 1) none s.toList

/-- `re.sub(pattern, '', s)` specialised to deletion: remove every
non-overlapping match (our patterns never match the empty string, but the
empty-match guard mirrors CPython anyway). -/
def rxSubDelAux (r : Rx) : Nat → Option Char → List Char → List Char
  | 0, _, l => l
  | Nat.succ fuel, pv, l =>
    match searchAt r pv l with
    | some (rest, _) =>
      if rest.length = l.length then
        match l with
        | [] => []
        | c :: t => c :: rxSubDelAux r fuel (some c) t
      else rxSubDelAux r fuel (stepPrev pv (l.take (l.length - rest.length))) rest
    | none =>
      match l with
      | [] => []
      | c :: t => c :: rxSubDelAux r fuel (some c) t

def reSubDel (r : Rx) (s : String) : String :=
  String.mk (rxSubDelAux r (s.toList.length + 1) none s.toList)

/-! Regex building helpers. -/

def rlit (s : String) : Rx := .lit s.toList false

/-- Case-insensitive literal (pattern stored lower-cased). -/
def rlitCI (s : String) : Rx := .lit (s.toList.map Char.toLower) true

def rseq (l : List Rx) : Rx := l.foldr .seq .eps

def ralts : List Rx → Rx
  | [] => .eps
  | [r] => r
  | r :: rs => .alt r (ralts rs)

def wsC (c : Char) : Bool := pyIsSpace c
def digitC (c : Char) : Bool := c.isDigit
def alphaC (c : Char) : Bool := c.isAlpha
def notNlC (c : Char) : Bool := c ≠ '\n'

/-! ## Data model (src/schema.py) -/

/-- `schema.Skill`. -/
structure Skill where
  name : String
  years_experience : Option String := none
  is_required : Bool := false
deriving Repr, DecidableEq

/-- Values stored in the open `additional_details` mapping (the source puts
strings, booleans and `None` there). -/
inductive PyVal where
  | str : String → PyVal
  | bool : Bool → PyVal
  | none : PyVal
deriving Repr, DecidableEq

/-- `Optional[str]` coerced into a `PyVal` detail entry. -/
def PyVal.ofOptStr : Option String → PyVal
  | some s => .str s
  | Option.none => .none

/-- `schema.JobAnalysisResponse`.  Confidence scores are rationals; the
mappings are association lists in Python insertion order. -/
structure JobAnalysisResponse where
  success : Bool
  company_name : Option String
  companyUrl : Option String
  job_title : Option String
  keywords : List String
  skills : List Skill
  experience_level : Option String
  additional_details : List (String × PyVal)
  confidence_scores : List (String × ℚ)

/-- `schema.JobPostingRequest`. -/
structure JobPostingRequest where
  content : String
  url : Option String := none
  rawHTML : Option String := none
  title : Option String := none
  companyGuess : Option String := none

/-- Dictionary lookup in an association list (first binding wins, as parsed
Python dicts have unique keys). -/
def dictGet (d : List (String × ℚ)) (k : String) : Option ℚ :=
  (d.find? (fun p => p.1 = k)).map (fun p => p.2)

/-! ## External-collaborator interfaces

BeautifulSoup is an external HTML parser; the repository only consumes it
through `select_one`, `select`, `find('title')`, the JSON-LD script blocks,
meta-tag `content` attributes and `get_text`.  A `Soup` value records those
query results for one document. -/

/-- A BeautifulSoup element as the source observes it. -/
structure Elem where
  /-- `element.get_text()` -/
  text : String
  /-- `element.get_text(strip=True)` -/
  stripText : String
  /-- `element.get('content', '')` (meta tags) -/
  attrContent : String
deriving Repr, DecidableEq

/-- JSON values, for the JSON-LD structured data. -/
inductive Json where
  | null : Json
  | str : String → Json
  | num : ℚ → Json
  | bool : Bool → Json
  | arr : List Json → Json
  | obj : List (String × Json) → Json

/-- `data[key]` on a parsed JSON object (`none` when `data` is not an object
or lacks the key; parsed dicts have unique keys so the first binding is the
binding). -/
def Json.get : Json → String → Option Json
  | .obj fields, key => (fields.find? (fun p => p.1 = key)).map (fun p => p.2)
  | _, _ => Option.none

/-- One parsed document as BeautifulSoup exposes it to the parsers. -/
structure Soup where
  /-- `soup.select_one(sel)` -/
  selectOne : String → Option Elem
  /-- `soup.select(sel)` -/
  selectAll : String → List Elem
  /-- the `script[type="application/ld+json"]` blocks, each either parsed
  JSON or `none` for a block whose `.string` is missing or fails
  `json.loads` (both are skipped by the source) -/
  jsonLdScripts : List (Option Json)
  /-- `soup.find('title')` -/
  titleElem : Option Elem
  /-- `soup.get_text()` -/
  fullText : String

/-! ## urllib.parse.urlparse().netloc (used by `can_parse`)

Model of the standard library: the netloc is the run after `//` (which may
follow a valid `scheme:`) up to the next `/`, `?` or `#`; it is empty when
the URL has no `//` part. -/

def schemeChar (c : Char) : Bool := c.isAlphanum || c = '+' || c = '-' || c = '.'

def afterScheme (l : List Char) : List Char :=
  let pre := l.takeWhile (fun c => c ≠ ':')
  match pre with
  | [] => l
  | c :: cs =>
    if pre.length < l.length && c.isAlpha && cs.all schemeChar then
      l.drop (pre.length + 1)
    else l

def netloc (url : String) : String :=
  match afterScheme url.toList with
  | '/' :: '/' :: rest =>
    String.mk (rest.takeWhile (fun c => c ≠ '/' && c ≠ '?' && c ≠ '#'))
  | _ => ""

/-! ## src/known_sites/linkedin.py -/

namespace LinkedInParser

/-- `LinkedInParser.can_parse`. -/
def can_parse (url : String) : Bool :=
  if url = "" then false
  else strHas (pyLower (netloc url)) "linkedin.com"

/-- selectors of `_extract_job_title`. -/
def title_selectors : List String :=
  ["h1.top-card-layout__title",
   ".job-details-jobs-unified-top-card__job-title h1",
   ".jobs-unified-top-card__job-title h1"]

/-- `_extract_job_title`: first selector that finds an element wins. -/
def extract_job_title (soup : Soup) : Option String :=
  title_selectors.findSome? (fun sel =>
    (soup.selectOne sel).map (fun e => e.stripText))

/-- the description selector shared by `_extract_skills` and
`_extract_keywords`. -/
def descSelector : String :=
  ".jobs-box__html-content, .job-details-jobs-unified-top-card__job-description"

def tech_skills : List String :=
  ["python", "javascript", "java", "react", "angular", "vue", "node.js",
   "sql", "postgresql", "mysql", "mongodb", "redis", "docker", "kubernetes",
   "aws", "azure", "gcp", "git", "jenkins", "ci/cd", "rest api", "graphql"]

/-- the years-of-experience pattern of `_extract_skills`:
`(\d+)\+?\s*years?\s*(?:of\s*)?(?:experience\s*)?(?:with\s*|in\s*)?<skill>`
(IGNORECASE; the description text is already lower-cased). -/
def yearsRx (skill : String) : Rx :=
  rseq [.group 1 (.plus digitC), .opt (rlit "+"), .star wsC,
        rlitCI "year", .opt (rlitCI "s"), .star wsC,
        .opt (rseq [rlitCI "of", .star wsC]),
        .opt (rseq [rlitCI "experience", .star wsC]),
        .opt (.alt (rseq [rlitCI "with", .star wsC]) (rseq [rlitCI "in", .star wsC])),
        rlitCI skill]

/-- required-indicator substrings checked against the whole description text
by `_extract_skills`. -/
def req_words : List String := ["required", "must have", "essential"]

/-- `_extract_skills`. -/
def extract_skills (soup : Soup) : List Skill :=
  match soup.selectOne descSelector with
  | none => []
  | some description =>
    let text := pyLower description.text
    (tech_skills.filter (fun skill => strHas text skill)).map (fun skill =>
      let years_exp := (reSearch (yearsRx skill) text).map (fun caps =>
        ((capGet caps 1).getD "") ++ "+ years")
      let is_required := req_words.any (fun w => strHas text w)
      { name := pyTitle skill, years_experience := years_exp,
        is_required := is_required })

/-- `_extract_experience_level`. -/
def extract_experience_level (soup : Soup) : Option String :=
  let text := pyLower soup.fullText
  if ["senior", "sr.", "lead", "principal"].any (fun w => strHas text w) then
    some "Senior"
  else if ["junior", "jr.", "entry level", "graduate"].any (fun w => strHas text w) then
    some "Junior"
  else if ["mid-level", "intermediate", "3-5 years"].any (fun w => strHas text w) then
    some "Mid-Level"
  else some "Not specified"

def common_keywords : List String :=
  ["remote", "hybrid", "full-time", "part-time", "contract",
   "startup", "enterprise", "agile", "scrum", "team lead"]

/-- `_extract_keywords`. -/
def extract_keywords (soup : Soup) : List String :=
  match soup.selectOne descSelector with
  | none => []
  | some description =>
    let text := description.text
    common_keywords.filter (fun k => strHas (pyLower text) (pyLower k))

/-- `_extract_location`. -/
def extract_location (soup : Soup) : Option String :=
  ([".job-details-jobs-unified-top-card__bullet",
    ".jobs-unified-top-card__bullet"].flatMap soup.selectAll).findSome?
    (fun e =>
      let text := e.stripText
      if (["remote", "hybrid"].any (fun w => strHas (pyLower text) w)) ||
          strHas text "," then some text
      else none)

/-- `_extract_employment_type`. -/
def extract_employment_type (soup : Soup) : Option String :=
  let text := pyLower soup.fullText
  if strHas text "full-time" then some "Full-time"
  else if strHas text "part-time" then some "Part-time"
  else if strHas text "contract" then some "Contract"
  else if strHas text "internship" then some "Internship"
  else none

/-- `_extract_seniority_level`. -/
def extract_seniority_level (soup : Soup) : Option String :=
  (soup.selectAll ".job-details-jobs-unified-top-card__job-insight").findSome?
    (fun e =>
      if strHas (pyLower e.text) "seniority level" then
        some (pyStrip ((pySplitOnChar ':' e.stripText).getLastD ""))
      else none)

/-- `_extract_company_size` (always `None`). -/
def extract_company_size (_soup : Soup) : Option String := Option.none

/-! `_extract_from_json_ld` and its helpers. -/

def company_paths : List String :=
  ["hiringOrganization.name", "hiringOrganization.legalName",
   "employmentType.hiringOrganization.name", "publisher.name", "author.name",
   "organization.name", "company.name", "employer.name"]

def direct_keys : List String := ["companyName", "company", "employer", "organization"]

/-- `_get_nested_value` (dot-notation walk). -/
def get_nested_value (data : Json) (path : String) : Option Json :=
  (pySplitOnChar '.' path).foldl
    (fun cur key =>
      match cur with
      | some c => c.get key
      | none => none)
    (some data)

/-- Result of `_extract_company_from_json_object`: a returned string, no
result, or a raised exception (`.strip()` on a non-string `name`), which the
`except` in `_extract_from_json_ld` turns into an overall `None`. -/
inductive JsonCompanyOutcome where
  | found : String → JsonCompanyOutcome
  | notFound : JsonCompanyOutcome
  | crashed : JsonCompanyOutcome
deriving Repr, DecidableEq

/-- the direct-key loop of `_extract_company_from_json_object`. -/
def directKeysScan : List String → Json → JsonCompanyOutcome
  | [], _ => .notFound
  | key :: rest, data =>
    match data.get key with
    | some (.str s) => .found (pyStrip s)
    | some (.obj fields) =>
      match (fields.find? (fun p => p.1 = "name")).map (fun p => p.2) with
      | some (Json.str n) => .found (pyStrip n)
      | some _ => .crashed
      | none => directKeysScan rest data
    | _ => directKeysScan rest data

/-- `_extract_company_from_json_object`. -/
def extract_company_from_json_object (data : Json) : JsonCompanyOutcome :=
  match company_paths.findSome? (fun path =>
      match get_nested_value data path with
      | some (.str v) =>
        if v ≠ "" && (pyStrip v).length > 0 then some (pyStrip v) else none
      | _ => none) with
  | some v => .found v
  | none => directKeysScan direct_keys data

/-- control flow inside the script loop of `_extract_from_json_ld`. -/
inductive LdStep where
  | ret : String → LdStep
  | next : LdStep
  | abort : LdStep

def ldStepOfOutcome : JsonCompanyOutcome → LdStep
  | .found s => if s ≠ "" then .ret s else .next
  | .notFound => .next
  | .crashed => .abort

def ldScanItems : List Json → LdStep
  | [] => .next
  | it :: rest =>
    match it with
    | .obj fields =>
      match ldStepOfOutcome (extract_company_from_json_object (.obj fields)) with
      | .ret s => .ret s
      | .abort => .abort
      | .next => ldScanItems rest
    | _ => ldScanItems rest

def ldScanScripts : List (Option Json) → Option String
  | [] => Option.none
  | sc :: rest =>
    match sc with
    | Option.none => ldScanScripts rest
    | some data =>
      let step := match data with
        | .obj fields => ldStepOfOutcome (extract_company_from_json_object (.obj fields))
        | .arr items => ldScanItems items
        | _ => LdStep.next
      match step with
      | .ret s => some s
      | .abort => Option.none
      | .next => ldScanScripts rest

/-- `_extract_from_json_ld`. -/
def extract_from_json_ld (soup : Soup) : Option String :=
  ldScanScripts soup.jsonLdScripts

/-- `_extract_from_css_selectors`. -/
def css_selectors : List String :=
  ["[data-test-id=\"job-details-header-company-name\"]",
   "[data-test-id=\"company-name\"]",
   ".job-details-jobs-unified-top-card__company-name a",
   ".jobs-unified-top-card__company-name a",
   ".jobs-unified-top-card__company-name",
   ".job-details__company-link",
   ".jobs-company-name",
   "[data-tracking-control-name=\"public_jobs_topcard-org-name\"]",
   "[data-tracking-control-name=\"public_jobs_topcard_org_name\"]",
   ".topcard__org-name-redirect",
   ".job-details-jobs-unified-top-card__primary-description-container a",
   "[class*=\"company-name\"]",
   "[class*=\"employer-name\"]",
   "[data-test*=\"company\"]",
   "[data-testid*=\"company\"]"]

def extract_from_css_selectors (soup : Soup) : Option String :=
  css_selectors.findSome? (fun sel =>
    match soup.selectOne sel with
    | some element =>
      let text := element.stripText
      if text ≠ "" && text.length > 1 && text.length < 100 then some text
      else none
    | none => none)

/-! `_extract_from_meta_tags` and its regexes. -/

def meta_selectors : List String :=
  ["meta[property=\"og:site_name\"]",
   "meta[name=\"author\"]",
   "meta[property=\"article:author\"]",
   "meta[name=\"company\"]",
   "meta[property=\"og:title\"]"]

/-- `\s*<sep>\s*LinkedIn.*$` (the `| LinkedIn` / `- LinkedIn` suffix strip). -/
def linkedinSuffixRx (sep : String) : Rx :=
  rseq [.star wsC, rlit sep, .star wsC, rlit "LinkedIn", .star notNlC, .eol]

def notPipeC (c : Char) : Bool := c ≠ '|'

/-- `-\s*([^|]+?)\s*\|\s*LinkedIn` (page-title split, case sensitive). -/
def linkedinTitleRx : Rx :=
  rseq [rlit "-", .star wsC, .group 1 (.lazyPlus notPipeC), .star wsC, rlit "|",
        .star wsC, rlit "LinkedIn"]

def extract_from_meta_tags (soup : Soup) : Option String :=
  let fromMeta := meta_selectors.findSome? (fun sel =>
    match soup.selectOne sel with
    | some meta =>
      let content := meta.attrContent
      if content ≠ "" && content.length > 1 && content.length < 100 then
        let content := reSubDel (linkedinSuffixRx "|") content
        let content := reSubDel (linkedinSuffixRx "-") content
        if pyStrip content ≠ "" then some (pyStrip content) else none
      else none
    | none => none)
  match fromMeta with
  | some v => some v
  | none =>
    match soup.titleElem with
    | some t =>
      match reSearch linkedinTitleRx t.stripText with
      | some caps =>
        let company := pyStrip ((capGet caps 1).getD "")
        if company ≠ "" && company.length > 1 then some company else none
      | none => none
    | none => none

/-! `_extract_from_text_patterns` and its regexes. -/

def notNlCmC (c : Char) : Bool := c ≠ '\n' && c ≠ '\r' && c ≠ ','

/-- `(?i)<label>\s*([^\n\r,]+)` for the `company:` / `employer:` /
`organization:` patterns. -/
def companyLabelRx (label : String) : Rx :=
  rseq [rlitCI label, .star wsC, .group 1 (.plus notNlCmC)]

/-- `(?i)hiring\s+company:\s*([^\n\r,]+)`. -/
def hiringCompanyRx : Rx :=
  rseq [rlitCI "hiring", .plus wsC, rlitCI "company:", .star wsC,
        .group 1 (.plus notNlCmC)]

def textPatternRxs : List Rx :=
  [companyLabelRx "company:", companyLabelRx "employer:",
   companyLabelRx "organization:", hiringCompanyRx]

def noise_words : List String := ["linkedin", "job", "career", "position"]

def extract_from_text_patterns (soup : Soup) : Option String :=
  (textPatternRxs.flatMap (fun r =>
      (reFindall r soup.fullText).map (fun c => (capGet c 1).getD ""))).findSome?
    (fun m0 =>
      let m := pyStrip m0
      if m ≠ "" && m.length > 1 && m.length < 100 &&
          !(noise_words.any (fun w => strHas (pyLower m) w)) then some m
      else none)

/-- `_extract_company_name`: the four-method fallback chain. -/
def extract_company_name (soup : Soup) : Option String :=
  match extract_from_json_ld soup with
  | some c => some c
  | none =>
    match extract_from_css_selectors soup with
    | some c => some c
    | none =>
      match extract_from_meta_tags soup with
      | some c => some c
      | none =>
        match extract_from_text_patterns soup with
        | some c => some c
        | none => none

/-- `LinkedInParser.parse` (the `url` argument is unused by the source). -/
def parse (soup : Soup) (_url : Option String) : JobAnalysisResponse :=
  { success := true
    company_name := extract_company_name soup
    companyUrl := none
    job_title := extract_job_title soup
    keywords := extract_keywords soup
    skills := extract_skills soup
    experience_level := extract_experience_level soup
    additional_details :=
      [("location", PyVal.ofOptStr (extract_location soup)),
       ("employment_type", PyVal.ofOptStr (extract_employment_type soup)),
       ("seniority_level", PyVal.ofOptStr (extract_seniority_level soup)),
       ("company_size", PyVal.ofOptStr (extract_company_size soup))]
    confidence_scores := [("parsing", 95/100)] }

/-- The lower-cased description text that `_extract_skills` scans (empty
when the description element is absent, in which case no skill is
produced). -/
def descTextLower (soup : Soup) : String :=
  match soup.selectOne descSelector with
  | some description => pyLower description.text
  | none => ""

end LinkedInParser

/-! ## src/known_sites/indeed.py -/

namespace IndeedParser

/-- `IndeedParser.can_parse`. -/
def can_parse (url : String) : Bool :=
  if url = "" then false
  else strHas (pyLower (netloc url)) "indeed.com"

def tech_skills : List String := LinkedInParser.tech_skills

/-- `_extract_skills_from_text` (same logic as the LinkedIn parser, over the
already lower-cased description text). -/
def extract_skills_from_text (text : String) : List Skill :=
  (tech_skills.filter (fun skill => strHas text skill)).map (fun skill =>
    let years_exp := (reSearch (LinkedInParser.yearsRx skill) text).map (fun caps =>
      ((capGet caps 1).getD "") ++ "+ years")
    let is_required := LinkedInParser.req_words.any (fun w => strHas text w)
    { name := pyTitle skill, years_experience := years_exp,
      is_required := is_required })

/-- `_extract_experience_from_text`. -/
def extract_experience_from_text (text : String) : Option String :=
  if ["senior", "sr.", "lead", "principal"].any (fun w => strHas text w) then
    some "Senior"
  else if ["junior", "jr.", "entry level", "graduate"].any (fun w => strHas text w) then
    some "Junior"
  else if ["mid-level", "intermediate", "3-5 years"].any (fun w => strHas text w) then
    some "Mid-Level"
  else some "Not specified"

/-- `_extract_keywords_from_text`. -/
def extract_keywords_from_text (text : String) : List String :=
  LinkedInParser.common_keywords.filter (fun k => strHas text (pyLower k))

/-- `_extract_location`. -/
def extract_location (soup : Soup) : Option String :=
  (soup.selectOne "[data-testid=\"job-location\"]").map (fun e => e.stripText)

/-- `_extract_salary`. -/
def extract_salary (soup : Soup) : Option String :=
  (soup.selectOne "[data-testid=\"attribute_snippet_testid\"]").map
    (fun e => e.stripText)

/-- `_extract_employment_type_from_text`. -/
def extract_employment_type_from_text (text : String) : Option String :=
  if strHas text "full-time" then some "Full-time"
  else if strHas text "part-time" then some "Part-time"
  else if strHas text "contract" then some "Contract"
  else if strHas text "internship" then some "Internship"
  else none

/-- `IndeedParser.parse` (the `url` argument is unused by the source). -/
def parse (soup : Soup) (_url : Option String) : JobAnalysisResponse :=
  let job_title := (soup.selectOne "h1[data-testid=\"jobsearch-JobInfoHeader-title\"]").map
    (fun e => e.stripText)
  let company_name := (soup.selectOne "[data-testid=\"inlineHeader-companyName\"]").map
    (fun e => e.stripText)
  let description_text :=
    match soup.selectOne "#jobDescriptionText, .jobsearch-jobDescriptionText" with
    | some e => pyLower e.text
    | none => ""
  { success := true
    company_name := company_name
    companyUrl := none
    job_title := job_title
    keywords := extract_keywords_from_text description_text
    skills := extract_skills_from_text description_text
    experience_level := extract_experience_from_text description_text
    additional_details :=
      [("location", PyVal.ofOptStr (extract_location soup)),
       ("salary", PyVal.ofOptStr (extract_salary soup)),
       ("employment_type",
        PyVal.ofOptStr (extract_employment_type_from_text description_text))]
    confidence_scores := [("parsing", 95/100)] }

/-- The lower-cased description text `parse` hands to
`_extract_skills_from_text` (empty when the description element is absent). -/
def descTextLower (soup : Soup) : String :=
  match soup.selectOne "#jobDescriptionText, .jobsearch-jobDescriptionText" with
  | some e => pyLower e.text
  | none => ""

end IndeedParser

/-! ## src/known_sites/base_parsers.py (the Parser Dispatcher) -/

/-- The registered parsers, in registration order. -/
inductive ParserKind where
  | linkedin : ParserKind
  | indeed : ParserKind
deriving Repr, DecidableEq

namespace JobParserFactory

/-- `canHandle` dispatch to the parser variants. -/
def can_parse : ParserKind → String → Bool
  | .linkedin, url => LinkedInParser.can_parse url
  | .indeed, url => IndeedParser.can_parse url

def parsers : List ParserKind := [.linkedin, .indeed]

/-- `JobParserFactory.getParser`: `None` for an absent or empty URL
(Python truthiness of `if not url`), else the first registered parser whose
`can_parse` accepts the URL. -/
def getParser (url : Option String) : Option ParserKind :=
  match url with
  | none => none
  | some u =>
    if u = "" then none
    else parsers.find? (fun p => can_parse p u)

/-- `JobParserFactory.can_parse_format`. -/
def can_parse_format (url : Option String) : Bool := (getParser url).isSome

end JobParserFactory

/-! ## The /analyze routing decision (src/app.py, lines 213-222) -/

/-- Which extraction path `analyze_job_posting` takes. -/
inductive AnalysisPath where
  | parserPath : ParserKind → AnalysisPath
  | genericPath : AnalysisPath
deriving Repr, DecidableEq

/-- `if parser and job_request.rawHTML:` — the format-specific parser runs
exclusively only when a parser was selected AND the request carries truthy
`rawHTML`; every other request goes to the NLP analyzer over `content`. -/
def analysisPath (req : JobPostingRequest) : AnalysisPath :=
  match JobParserFactory.getParser req.url with
  | some p => if pyTruthy req.rawHTML then .parserPath p else .genericPath
  | none => .genericPath

/-! ## src/scanner.py (the Generic Analyzer)

The spaCy NER model and the KeyBERT keyword ranker are external
collaborators (§6 of the spec); their responses for the analyzed content are
supplied in an `AnalyzerEnv`. -/

namespace JobAnalyzer

/-- `self.common_job_titles` (a set; only membership/`any` is used). -/
def common_job_titles : List String :=
  ["software", "engineer", "developer", "programmer", "architect",
   "manager", "lead", "senior", "junior", "analyst", "scientist",
   "designer", "consultant", "specialist", "coordinator", "director"]

/-- `self.skill_keywords`, flattened in dict insertion order
(programming, web, database, cloud, tools). -/
def all_skills : List String :=
  ["python", "java", "javascript", "c++", "c#", "ruby", "go", "rust",
   "html", "css", "react", "angular", "vue", "node.js", "express",
   "sql", "mysql", "postgresql", "mongodb", "redis",
   "aws", "azure", "gcp", "docker", "kubernetes",
   "git", "jenkins", "jira", "confluence"]

/-- Collaborator responses for one `analyze` call. -/
structure AnalyzerEnv where
  /-- spaCy entities of the first-100-words prefix: (text, label) pairs -/
  ents : List (String × String)
  /-- KeyBERT `extract_keywords(text, (1,3), 'english', top_n=20)` -/
  kwSkills : List (String × ℚ)
  /-- KeyBERT `extract_keywords(content, (1,2), 'english', top_n=15)` -/
  kwKeywords : List (String × ℚ)

/-! Regexes of scanner.py. -/

def pmsC (c : Char) : Bool := c = '+' || c = '-' || pyIsSpace c
def psC (c : Char) : Bool := c = '+' || pyIsSpace c

/-- `(?:years?|yrs?)`. -/
def yearsOrYrs : Rx :=
  .alt (rseq [rlitCI "year", .opt (rlitCI "s")])
       (rseq [rlitCI "yr", .opt (rlitCI "s")])

/-- `(\d+)[\+\-\s]*(?:to|\-|–)?\s*(\d+)?\s*(?:years?|yrs?)\s+(?:of\s+)?experience` -/
def expP1 : Rx :=
  rseq [.group 1 (.plus digitC), .star pmsC,
        .opt (ralts [rlitCI "to", rlit "-", rlit "–"]), .star wsC,
        .opt (.group 2 (.plus digitC)), .star wsC, yearsOrYrs, .plus wsC,
        .opt (rseq [rlitCI "of", .plus wsC]), rlitCI "experience"]

/-- `(\d+)[\+\s]*(?:years?|yrs?)\s+(?:of\s+)?(?:experience|exp)` -/
def expP2 : Rx :=
  rseq [.group 1 (.plus digitC), .star psC, yearsOrYrs, .plus wsC,
        .opt (rseq [rlitCI "of", .plus wsC]),
        .alt (rlitCI "experience") (rlitCI "exp")]

/-- `minimum\s+(\d+)\s+(?:years?|yrs?)` -/
def expP3 : Rx :=
  rseq [rlitCI "minimum", .plus wsC, .group 1 (.plus digitC), .plus wsC, yearsOrYrs]

/-- `at\s+least\s+(\d+)\s+(?:years?|yrs?)` -/
def expP4 : Rx :=
  rseq [rlitCI "at", .plus wsC, rlitCI "least", .plus wsC,
        .group 1 (.plus digitC), .plus wsC, yearsOrYrs]

/-- `self.experience_patterns`, each flagged with whether the pattern defines
a group 2 (`match.group(2)` raises `IndexError: no such group` otherwise). -/
def experience_patterns : List (Rx × Bool) :=
  [(expP1, true), (expP2, false), (expP3, false), (expP4, false)]

def compClsC (c : Char) : Bool := c.isAlpha || pyIsSpace c || c = '&'

/-- `(?:Inc|LLC|Corp|Ltd|Company)` (IGNORECASE). -/
def legalSuffix : Rx :=
  ralts [rlitCI "inc", rlitCI "llc", rlitCI "corp", rlitCI "ltd", rlitCI "company"]

/-- `(?:at|@)\s+([A-Z][a-zA-Z\s&]+(?:Inc|LLC|Corp|Ltd|Company)?)` (IGNORECASE). -/
def compP1 : Rx :=
  rseq [.alt (rlitCI "at") (rlit "@"), .plus wsC,
        .group 1 (rseq [.cls alphaC, .plus compClsC, .opt legalSuffix])]

/-- `([A-Z][a-zA-Z\s&]+(?:Inc|LLC|Corp|Ltd|Company))\s+is\s+(?:hiring|looking)` -/
def compP2 : Rx :=
  rseq [.group 1 (rseq [.cls alphaC, .plus compClsC, legalSuffix]), .plus wsC,
        rlitCI "is", .plus wsC, .alt (rlitCI "hiring") (rlitCI "looking")]

def company_patterns : List Rx := [compP1, compP2]

def titleClsC (c : Char) : Bool := c.isAlpha || pyIsSpace c || c = '-' || c = '/'

/-- `(?:Engineer|Developer|Manager|Analyst|Designer|Lead|Director)` (IGNORECASE). -/
def roleSuffix : Rx :=
  ralts [rlitCI "engineer", rlitCI "developer", rlitCI "manager", rlitCI "analyst",
         rlitCI "designer", rlitCI "lead", rlitCI "director"]

/-- The capture shared by the three title patterns: one letter (`[A-Z]`
matches any ASCII letter under IGNORECASE), a greedy run over the class of
letters, whitespace, hyphen and slash, then a role suffix from
`Engineer|Developer|Manager|Analyst|Designer|Lead|Director`. -/
def titleCore : Rx := .group 1 (rseq [.cls alphaC, .plus titleClsC, roleSuffix])

/-- title pattern 1: `(?:position|role|job)\s*:?\s*` followed by the
captured title core. -/
def titleP1 : Rx :=
  rseq [ralts [rlitCI "position", rlitCI "role", rlitCI "job"], .star wsC,
        .opt (rlit ":"), .star wsC, titleCore]

/-- title pattern 2: `(?:hiring|seeking)\s+(?:a|an)?\s*` followed by the
captured title core. -/
def titleP2 : Rx :=
  rseq [.alt (rlitCI "hiring") (rlitCI "seeking"), .plus wsC,
        .opt (.alt (rlitCI "a") (rlitCI "an")), .star wsC, titleCore]

/-- title pattern 3: `^` (MULTILINE) followed by the captured title core. -/
def titleP3 : Rx := rseq [.bol true, titleCore]

def title_patterns : List Rx := [titleP1, titleP2, titleP3]

def digComC (c : Char) : Bool := c.isDigit || c = ','

/-- `\$[\d,]+(?:\s*-\s*\$?[\d,]+)?(?:\s*(?:per\s+)?(?:year|annually|k|K))?`
(no flags: case sensitive). -/
def salaryRx : Rx :=
  rseq [rlit "$", .plus digComC,
        .opt (rseq [.star wsC, rlit "-", .star wsC, .opt (rlit "$"), .plus digComC]),
        .opt (rseq [.star wsC, .opt (rseq [rlit "per", .plus wsC]),
                    ralts [rlit "year", rlit "annually", rlit "k", rlit "K"]])]

/-- `(\d+[\+\-\s]*(?:to|\-)?\s*\d*)\s+employees` (IGNORECASE). -/
def sizeP1 : Rx :=
  rseq [.group 1 (rseq [.plus digitC, .star pmsC, .opt (.alt (rlitCI "to") (rlit "-")),
                        .star wsC, .star digitC]),
        .plus wsC, rlitCI "employees"]

/-- `(?:startup|small|medium|large|enterprise)\s+(?:company|organization)` (IGNORECASE). -/
def sizeP2 : Rx :=
  rseq [ralts [rlitCI "startup", rlitCI "small", rlitCI "medium", rlitCI "large",
               rlitCI "enterprise"],
        .plus wsC, .alt (rlitCI "company") (rlitCI "organization")]

def size_patterns : List Rx := [sizeP1, sizeP2]

/-- `(entry.level|junior|senior|lead|principal|staff)` — the `.` matches any
non-newline character (IGNORECASE). -/
def lvlP1 : Rx :=
  .group 1 (ralts [rseq [rlitCI "entry", .cls notNlC, rlitCI "level"],
                   rlitCI "junior", rlitCI "senior", rlitCI "lead",
                   rlitCI "principal", rlitCI "staff"])

/-- `(\d+)[\+\s]*(?:years?|yrs?)\s+(?:of\s+)?(?:total\s+)?experience` (IGNORECASE). -/
def lvlP2 : Rx :=
  rseq [.group 1 (.plus digitC), .star psC, yearsOrYrs, .plus wsC,
        .opt (rseq [rlitCI "of", .plus wsC]),
        .opt (rseq [rlitCI "total", .plus wsC]), rlitCI "experience"]

def exp_patterns : List Rx := [lvlP1, lvlP2]

/-- `extract_company_name`: spaCy ORG entities of the first 100 words
(spans of at most 4 words) followed by the two regex patterns over the full
text; the first candidate wins. -/
def extract_company_name (env : AnalyzerEnv) (text : String) : Option String :=
  let companies :=
    (env.ents.filter (fun e => e.2 = "ORG" && (pySplit e.1).length ≤ 4)).map
      (fun e => e.1)
  let companies := companies ++
    company_patterns.flatMap (fun r =>
      (reFindall r text).map (fun c => (capGet c 1).getD ""))
  match companies with
  | [] => none
  | c :: _ => some (pyStrip c)

/-- `extract_job_title`. -/
def extract_job_title (text : String) : Option String :=
  match title_patterns.findSome? (fun r =>
      match reSearch r text with
      | some caps =>
        let title := pyStrip ((capGet caps 1).getD "")
        if common_job_titles.any (fun kw => strHas (pyLower title) kw) then
          some title
        else none
      | none => none) with
  | some t => some t
  | none =>
    let first_line :=
      if strHas text "\n" then (pySplitOnChar '\n' text).headD ""
      else (pySplitOnChar '.' text).headD ""
    let words := pySplit (pyLower first_line)
    if common_job_titles.any (fun w => words.contains w) then
      some (pyStrip first_line)
    else none

/-- `get_context_around_skill` (window = 50, the default; no caller
overrides it). -/
def get_context_around_skill (text skill : String) : String :=
  let words := pySplit text
  let idxs := (words.enum.filter (fun p => strHas (pyLower p.2) (pyLower skill))).map
    (fun p => p.1)
  match idxs with
  | [] => ""
  | idx :: _ =>
    let start := idx - 50
    let stop := min words.length (idx + 50)
    joinSep " " ((words.drop start).take (stop - start))

def required_indicators : List String := ["required", "must have", "essential", "mandatory"]
def preferred_indicators : List String := ["preferred", "nice to have", "bonus", "plus"]

/-- `is_skill_required`: only the required indicators, checked against the
windowed context, decide the flag (the preferred indicators are never
consulted for the return value). -/
def is_skill_required (text skill : String) : Bool :=
  let context_lower := pyLower (get_context_around_skill text skill)
  required_indicators.any (fun ind => strHas context_lower ind)

/-- `extract_experience_for_skill`.  `match.group(2)` on the patterns that
define only one group raises `IndexError`, modelled as `.error`. -/
def extract_experience_for_skill_aux :
    List (Rx × Bool) → String → Except String (Option String)
  | [], _ => .ok none
  | (r, hasG2) :: rest, ctx =>
    match reSearch r ctx with
    | some caps =>
      if hasG2 then
        if ((capGet caps 2).getD "") ≠ "" then
          .ok (some (((capGet caps 1).getD "") ++ "-" ++
                     ((capGet caps 2).getD "") ++ " years"))
        else .ok (some (((capGet caps 1).getD "") ++ "+ years"))
      else .error "IndexError: no such group"
    | none => extract_experience_for_skill_aux rest ctx

def extract_experience_for_skill (text skill : String) :
    Except String (Option String) :=
  extract_experience_for_skill_aux experience_patterns
    (get_context_around_skill text skill)

/-- the per-skill loop body of `extract_skills_and_experience`. -/
def skillsLoop (text : String) : List String → Except String (List Skill)
  | [] => .ok []
  | skill :: rest =>
    match extract_experience_for_skill text skill with
    | .error e => .error e
    | .ok experience =>
      match skillsLoop text rest with
      | .error e => .error e
      | .ok skills =>
        .ok ({ name := skill, years_experience := experience,
               is_required := is_skill_required text skill } :: skills)

/-- `extract_skills_and_experience`. -/
def extract_skills_and_experience (env : AnalyzerEnv) (text : String) :
    Except String (List Skill) :=
  let relevant_skills := (env.kwSkills.filter (fun kw =>
    all_skills.any (fun skill => strHas (pyLower kw.1) (pyLower skill)))).map
    (fun kw => kw.1)
  skillsLoop text relevant_skills

/-- `extract_additional_details`. -/
def extract_additional_details (text : String) (url : Option String) :
    List (String × PyVal) :=
  (match (reFindall salaryRx text).map (fun c => (capGet c 0).getD "") with
   | [] => []
   | m :: _ => [("salary_range", PyVal.str m)]) ++
  [("remote_work", PyVal.bool (["remote", "work from home", "distributed",
      "telecommute"].any (fun k => strHas (pyLower text) k)))] ++
  (match size_patterns.findSome? (fun r =>
      (reSearch r text).map (fun c => (capGet c 0).getD "")) with
   | some m => [("company_size", PyVal.str m)]
   | none => []) ++
  [("education_required", PyVal.bool (["bachelor", "master", "phd", "degree",
      "university", "college"].any (fun k => strHas (pyLower text) k)))] ++
  (if pyTruthy url then [("source_url", PyVal.str (url.getD ""))] else [])

/-- the `result_dict` handed to `calculate_confidence_scores`. -/
structure ResultDict where
  company_name : Option String
  job_title : Option String
  skills : List Skill
  keywords : List String

/-- `calculate_confidence_scores` (floats as exact rationals). -/
def calculate_confidence_scores (result : ResultDict) : List (String × ℚ) :=
  [("company_name", if pyTruthy result.company_name then 8/10 else 0),
   ("job_title", if pyTruthy result.job_title then 9/10 else 0),
   ("skills", min (9/10) ((result.skills.length : ℚ) * (1/10))),
   ("keywords", min (9/10) ((result.keywords.length : ℚ) * (5/100)))]

/-- `JobAnalyzer.analyze`.  Any exception inside the `try` body (the
`IndexError` reachable from `extract_experience_for_skill`) is re-raised as
a single analysis failure, modelled by `.error`. -/
def analyze (env : AnalyzerEnv) (content : String) (url : Option String)
    (title : Option String) (company_guess : Option String) :
    Except String JobAnalysisResponse :=
  let job_title0 := extract_job_title content
  let job_title :=
    if !(pyTruthy job_title0) && pyTruthy title then title else job_title0
  let company_name0 := extract_company_name env content
  let company_name :=
    if !(pyTruthy company_name0) && pyTruthy company_guess then company_guess
    else company_name0
  match extract_skills_and_experience env content with
  | .error e => .error ("Analysis failed: " ++ e)
  | .ok skills =>
    let keywords := env.kwKeywords.map (fun kw => kw.1)
    let experience_level := exp_patterns.findSome? (fun r =>
      (reSearch r content).map (fun c => (capGet c 1).getD ""))
    let additional_details := extract_additional_details content url ++
      (if pyTruthy title then [("page_title", PyVal.str (title.getD ""))] else []) ++
      (if pyTruthy company_guess then
        [("company_guess", PyVal.str (company_guess.getD ""))] else [])
    let confidence_scores := calculate_confidence_scores
      { company_name := company_name, job_title := job_title,
        skills := skills, keywords := keywords }
    .ok { success := true
          company_name := company_name
          job_title := job_title
          companyUrl := none
          keywords := keywords
          skills := skills
          experience_level := experience_level
          additional_details := additional_details
          confidence_scores := confidence_scores }

end JobAnalyzer

/-! ## src/site_searcher/site_finder.py (the Career Page Resolver)

Clearbit, Google Custom Search and the Supabase store are external
collaborators; their responses are supplied in a `FinderEnv`.  The source
catches every Clearbit/Google exception internally and maps it to
`None` / `[]`, so a failing call and an empty answer are the same value
here. -/

namespace CareerPageFinder

/-- One Google search result as the source reads it
(`result.get('link'/'title'/'snippet', '')`). -/
structure SearchResult where
  link : String := ""
  title : String := ""
  snippet : String := ""
deriving Repr, DecidableEq

/-- The dict returned by `find_career_page` and its helpers. -/
structure CareerPageResult where
  domain : Option String
  career_url : String
  source : String
  confidence_score : Int
  /-- only present on a cache hit -/
  last_verified : Option String := none
deriving Repr, DecidableEq

def job_boards : List String :=
  ["indeed.com", "linkedin.com", "glassdoor.com", "ziprecruiter.com",
   "monster.com", "careerbuilder.com", "simplyhired.com"]

def career_keywords : List String :=
  ["career", "jobs", "hiring", "employment", "work", "join"]

def career_patterns : List String :=
  ["/careers", "/jobs", "/hiring", "careers.", "jobs."]

def official_indicators : List String :=
  ["careers at", "jobs at", "work at", "join our team"]

def suffixes : List String :=
  ["Inc", "Inc.", "LLC", "Corp", "Corp.", "Corporation", "Ltd", "Limited", "Co"]

/-- `\b<suffix>\b\s*$` (IGNORECASE), applied by `_clean_company_name`. -/
def suffixRx (sfx : String) : Rx := rseq [.wb, rlitCI sfx, .wb, .star wsC, .eol]

/-- `_clean_company_name`. -/
def clean_company_name (company_name : String) : String :=
  pyStrip (suffixes.foldl (fun cleaned sfx => reSubDel (suffixRx sfx) cleaned)
    company_name)

/-- `_score_career_url`.  The float products `int(50*1.2)`, `int(75*1.2)`,
`int(40*1.2)`, `int(60*1.2)` equal their exact rational truncations
(60, 90, 48, 72), so the score is an exact integer here. -/
def score_career_url (url title snippet company_name : String)
    (is_targeted : Bool) : Int :=
  if url = "" then 0
  else
    let url_lower := pyLower url
    let title_lower := pyLower title
    let _snippet_lower := pyLower snippet
    let company_lower := pyLower (clean_company_name company_name)
    if job_boards.any (fun board => strHas url_lower board) then 0
    else if !(career_keywords.any (fun k =>
        strHas url_lower k || strHas title_lower k)) then 0
    else
      let base_multiplier : ℚ := if is_targeted then 12/10 else 1
      (if ["career", "jobs", "hiring"].any (fun t => strHas url_lower t) then
        ⌊50 * base_multiplier⌋ else 0) +
      (if strHas title_lower company_lower then ⌊75 * base_multiplier⌋ else 0) +
      (if career_patterns.any (fun p => strHas url_lower p) then
        ⌊40 * base_multiplier⌋ else 0) +
      (if official_indicators.any (fun i => strHas title_lower i) then
        ⌊60 * base_multiplier⌋ else 0) +
      (if is_targeted then 30 else 0)

structure ScoredResult where
  score : Int
  url : String
  title : String
deriving Repr, DecidableEq

/-- the `scored_results` list of `_find_best_career_url`: the candidates
with positive score, in first-seen order. -/
def scoredCandidates (search_results : List SearchResult)
    (company_name : String) (is_targeted : Bool) : List ScoredResult :=
  search_results.filterMap (fun r =>
    let score := score_career_url r.link r.title r.snippet company_name is_targeted
    if score > 0 then some ⟨score, r.link, r.title⟩ else none)

/-- one step of Python's `max(..., key=lambda x: x['score'])`: the running
maximum is replaced only on a strictly greater score, so the first maximum
wins. -/
def stepMax (b y : ScoredResult) : ScoredResult :=
  if y.score > b.score then y else b

/-- `_find_best_career_url`: keep the positive scores, take the maximum
(Python's `max` keeps the first element among ties), accept it only when it
reaches the mode's threshold. -/
def find_best_career_url (search_results : List SearchResult)
    (company_name : String) (is_targeted : Bool) : Option ScoredResult :=
  match scoredCandidates search_results company_name is_targeted with
  | [] => none
  | x :: xs =>
    let best := xs.foldl stepMax x
    if best.score ≥ (if is_targeted then 30 else 50) then some best else none

/-- Collaborator responses for one `find_career_page` call. -/
structure FinderEnv where
  /-- `_get_from_cache`: the stored row matching the company name
  case-insensitively with `last_verified` within 30 days, if any -/
  cachedFresh : Option CareerPageResult
  /-- `_clearbit_domain_lookup` (failure is caught and becomes `none`) -/
  clearbitDomain : Option String
  /-- `_google_search` per query (failure is caught and becomes `[]`) -/
  googleSearch : String → List SearchResult

/-- `_targeted_google_search`. -/
def targeted_google_search (env : FinderEnv) (company_name domain : String) :
    Option CareerPageResult :=
  ["site:" ++ domain ++ " careers",
   "site:" ++ domain ++ " jobs",
   "site:" ++ domain ++ " hiring",
   "site:" ++ domain ++ " \"careers\" OR \"jobs\" OR \"hiring\""].findSome?
    (fun query =>
      let results := env.googleSearch query
      if results.isEmpty then none
      else
        match find_best_career_url results company_name true with
        | some best =>
          some { domain := some domain, career_url := best.url,
                 source := "targeted_google_clearbit",
                 confidence_score := best.score }
        | none => none)

/-- `_broad_google_search`. -/
def broad_google_search (env : FinderEnv) (company_name : String) :
    Option CareerPageResult :=
  ["\"" ++ company_name ++ "\" careers",
   "\"" ++ company_name ++ "\" jobs",
   "\"" ++ company_name ++ "\" careers OR jobs OR hiring"].findSome?
    (fun query =>
      let results := env.googleSearch query
      if results.isEmpty then none
      else
        match find_best_career_url results company_name false with
        | some best =>
          some { domain := some (netloc best.url), career_url := best.url,
                 source := "broad_google", confidence_score := best.score }
        | none => none)

/-- `find_career_page`: cache, then Clearbit-targeted search, then broad
search; the persist step (step 4) only writes to the store and leaves the
returned value unchanged.  Exhausting every step returns `none` normally. -/
def find_career_page (env : FinderEnv) (company_name : String)
    (force_refresh : Bool) : Option CareerPageResult :=
  match (if force_refresh then none else env.cachedFresh) with
  | some cached => some cached
  | none =>
    let career_result :=
      match env.clearbitDomain with
      | some d => targeted_google_search env company_name d
      | none => none
    match career_result with
    | some r => some r
    | none => broad_google_search env company_name

end CareerPageFinder

/-! ## The enrichment step of /analyze (src/app.py, lines 233-240) -/

/-- What the call `finder.find_career_page(result.company_name)` did:
returned a value, or raised (any internal exception that escapes, e.g. a
store read error). -/
inductive ResolverOutcome where
  | ok : Option CareerPageFinder.CareerPageResult → ResolverOutcome
  | raised : String → ResolverOutcome

/-- The `try/except` enrichment block: a raised exception is logged and
swallowed, an empty answer changes nothing, and a found page only fills
`companyUrl`. -/
def enrich_with_career_page (result : JobAnalysisResponse)
    (outcome : ResolverOutcome) : JobAnalysisResponse :=
  if !(pyTruthy result.companyUrl) && pyTruthy result.company_name then
    match outcome with
    | .ok (some cpr) => { result with companyUrl := some cpr.career_url }
    | .ok none => result
    | .raised _ => result
  else result

/-! ## Concrete inputs for the witnesses and counterexamples -/

namespace Inputs

def linkedinUrl : String := "https://www.linkedin.com/jobs/view/1"

/-- a /analyze request with a LinkedIn URL but no rawHTML -/
def reqNoHtml : JobPostingRequest :=
  { content := "Job text", url := some linkedinUrl, rawHTML := none }

/-- a /analyze request with a LinkedIn URL and rawHTML -/
def reqHtml : JobPostingRequest :=
  { content := "Job text", url := some linkedinUrl, rawHTML := some "<html></html>" }

/-- a /analyze request with an unknown URL -/
def reqBlog : JobPostingRequest :=
  { content := "Job text", url := some "https://unknown-blog.example.com/post",
    rawHTML := none }

/-- a document on which every BeautifulSoup query comes back empty -/
def soupEmpty : Soup :=
  { selectOne := fun _ => none
    selectAll := fun _ => []
    jsonLdScripts := []
    titleElem := none
    fullText := "" }

/-- a result dict with a present company name -/
def rdCompany : JobAnalyzer.ResultDict :=
  { company_name := some "Acme", job_title := none,
    skills := [{ name := "Python" }], keywords := ["remote"] }

/-- a document whose JSON-LD names Acme while its page text carries a
conflicting `company: Evil Corp` free-text match -/
def soupC5 : Soup :=
  { selectOne := fun _ => none
    selectAll := fun _ => []
    jsonLdScripts :=
      [some (.obj [("hiringOrganization", .obj [("name", .str "Acme")])])]
    titleElem := none
    fullText := "Great role.\ncompany: Evil Corp\nApply now" }

/-- description text mentioning python once, with "required" 61 words after
the mention — outside every 50-word window around it -/
def textFarRequired : String :=
  "python " ++ joinSep " " (List.replicate 60 "word") ++ " required"

/-- a Soup holding `textFarRequired` as its description element -/
def soupFarRequired : Soup :=
  { selectOne := fun sel =>
      if sel = LinkedInParser.descSelector then
        some { text := textFarRequired, stripText := textFarRequired, attrContent := "" }
      else none
    selectAll := fun _ => []
    jsonLdScripts := []
    titleElem := none
    fullText := "" }

/-- description text with a preferred indicator and no required indicator -/
def textNiceToHave : String := "python is nice to have here"

def soupNiceToHave : Soup :=
  { selectOne := fun sel =>
      if sel = LinkedInParser.descSelector then
        some { text := textNiceToHave, stripText := textNiceToHave, attrContent := "" }
      else none
    selectAll := fun _ => []
    jsonLdScripts := []
    titleElem := none
    fullText := "" }

def skillNotRequired : Skill :=
  { name := "Python", years_experience := none, is_required := false }

/-- an analyzer environment whose keyword ranker reports one skill phrase -/
def envOneSkill : JobAnalyzer.AnalyzerEnv :=
  { ents := [], kwSkills := [("python", 1/2)], kwKeywords := [] }

def contentPlain : String := "word"

def respFallback : JobAnalysisResponse :=
  { success := false, company_name := none, companyUrl := none, job_title := none,
    keywords := [], skills := [], experience_level := none,
    additional_details := [], confidence_scores := [] }

/-- the Generic Analyzer's output on `contentPlain` under `envOneSkill` -/
def respPlain : JobAnalysisResponse :=
  ((JobAnalyzer.analyze envOneSkill contentPlain none none none).toOption).getD
    respFallback

/-- two skills in one description, both flagged by a far-away "required" -/
def textTwoSkills : String := "python and sql are required"

def soupTwoSkills : Soup :=
  { selectOne := fun sel =>
      if sel = "#jobDescriptionText, .jobsearch-jobDescriptionText" then
        some { text := textTwoSkills, stripText := textTwoSkills, attrContent := "" }
      else none
    selectAll := fun _ => []
    jsonLdScripts := []
    titleElem := none
    fullText := "" }

def skillPythonReq : Skill :=
  { name := "Python", years_experience := none, is_required := true }

def skillSqlReq : Skill :=
  { name := "Sql", years_experience := none, is_required := true }

/-- the blocklisted aggregator URL from the spec -/
def aggregatorUrl : String := "https://www.linkedin.com/jobs/careers-at-acme"

/-- the search results used for the selection witness -/
def resultsTwo : List CareerPageFinder.SearchResult :=
  [{ link := "https://a.com/careers", title := "Careers at A" },
   { link := "https://b.com/careers", title := "Careers at B" }]

/-- a resolver environment where the cache misses, Clearbit has no answer
and every search comes back empty -/
def envNothing : CareerPageFinder.FinderEnv :=
  { cachedFresh := none, clearbitDomain := none, googleSearch := fun _ => [] }

/-- an analysis result with a company name and no URL -/
def resultAcme : JobAnalysisResponse :=
  { success := true, company_name := some "Acme", companyUrl := none,
    job_title := some "Engineer", keywords := [], skills := [],
    experience_level := none, additional_details := [], confidence_scores := [] }

end Inputs

/-! ## Proof helpers (shared lemmas, not claim theorems) -/

/-- The running maximum of `stepMax` splits its input around the first
maximum: everything before it is strictly smaller, everything after it is
no larger. -/
lemma foldl_stepMax_split :
    ∀ (xs : List CareerPageFinder.ScoredResult) (x : CareerPageFinder.ScoredResult),
      ∃ pre post,
        x :: xs = pre ++ (xs.foldl CareerPageFinder.stepMax x) :: post ∧
        (∀ y ∈ pre, y.score < (xs.foldl CareerPageFinder.stepMax x).score) ∧
        (∀ y ∈ post, y.score ≤ (xs.foldl CareerPageFinder.stepMax x).score) := by
  intro xs
  induction xs with
  | nil =>
    intro x
    exact ⟨[], [], rfl, by simp, by simp⟩
  | cons y ys ih =>
    intro x
    rw [List.foldl_cons]
    by_cases h : y.score > x.score
    · have hstep : CareerPageFinder.stepMax x y = y := if_pos h
      rw [hstep]
      obtain ⟨pre, post, hsplit, hpre, hpost⟩ := ih y
      have hyle : y.score ≤ (ys.foldl CareerPageFinder.stepMax y).score := by
        rcases pre with _ | ⟨p, ps⟩
        · rw [List.nil_append] at hsplit
          injection hsplit with h1 _
          exact le_of_eq (congrArg CareerPageFinder.ScoredResult.score h1)
        · rw [List.cons_append] at hsplit
          injection hsplit with h1 _
          have hp := hpre p (List.mem_cons_self p ps)
          rw [← h1] at hp
          exact le_of_lt hp
      refine ⟨x :: pre, post, ?_, ?_, hpost⟩
      · rw [List.cons_append, ← hsplit]
      · intro z hz
        rcases List.mem_cons.mp hz with rfl | hz
        · exact lt_of_lt_of_le h hyle
        · exact hpre z hz
    · have hstep : CareerPageFinder.stepMax x y = x := if_neg h
      rw [hstep]
      obtain ⟨pre, post, hsplit, hpre, hpost⟩ := ih x
      have hyx : y.score ≤ x.score := not_lt.mp h
      rcases pre with _ | ⟨p, ps⟩
      · rw [List.nil_append] at hsplit
        injection hsplit with h1 h2
        refine ⟨[], y :: ys, ?_, by simp, ?_⟩
        · rw [List.nil_append, ← h1]
        · intro z hz
          rcases List.mem_cons.mp hz with rfl | hz
          · exact hyx.trans (le_of_eq (congrArg CareerPageFinder.ScoredResult.score h1))
          · exact hpost z (h2 ▸ hz)
      · rw [List.cons_append] at hsplit
        injection hsplit with h1 h2
        have hxlt : x.score < (ys.foldl CareerPageFinder.stepMax x).score := by
          have hp := hpre p (List.mem_cons_self p ps)
          rw [← h1] at hp
          exact hp
        refine ⟨x :: y :: ps, post, ?_, ?_, hpost⟩
        · rw [List.cons_append, List.cons_append, ← h2]
        · intro z hz
          rcases List.mem_cons.mp hz with rfl | hz
          · exact hxlt
          rcases List.mem_cons.mp hz with rfl | hz
          · exact lt_of_le_of_lt hyx hxlt
          · exact hpre z (List.mem_cons_of_mem p hz)

/-- `_find_best_career_url` on an empty candidate list. -/
lemma find_best_nil (results : List CareerPageFinder.SearchResult)
    (cname : String) (mode : Bool)
    (hc : CareerPageFinder.scoredCandidates results cname mode = []) :
    CareerPageFinder.find_best_career_url results cname mode = none := by
  unfold CareerPageFinder.find_best_career_url
  rw [hc]

/-- `_find_best_career_url` on a non-empty candidate list. -/
lemma find_best_cons (x : CareerPageFinder.ScoredResult)
    (xs : List CareerPageFinder.ScoredResult)
    (results : List CareerPageFinder.SearchResult) (cname : String) (mode : Bool)
    (hc : CareerPageFinder.scoredCandidates results cname mode = x :: xs) :
    CareerPageFinder.find_best_career_url results cname mode =
      if (xs.foldl CareerPageFinder.stepMax x).score ≥ (if mode then 30 else 50)
      then some (xs.foldl CareerPageFinder.stepMax x) else none := by
  unfold CareerPageFinder.find_best_career_url
  rw [hc]

/-- Membership in the LinkedIn skill list determines the shape of the
skill record. -/
lemma linkedin_skills_required (soup : Soup) (s : Skill)
    (hs : s ∈ LinkedInParser.extract_skills soup) :
    s.is_required = LinkedInParser.req_words.any
      (fun w => strHas (LinkedInParser.descTextLower soup) w) := by
  unfold LinkedInParser.extract_skills at hs
  unfold LinkedInParser.descTextLower
  cases hsel : soup.selectOne LinkedInParser.descSelector with
  | none => rw [hsel] at hs; simp at hs
  | some d =>
    rw [hsel] at hs
    simp only [List.mem_map] at hs
    obtain ⟨skill, _, rfl⟩ := hs
    rfl

/-- Membership in the Indeed skill list determines the required flag. -/
lemma indeed_skills_required (text : String) (s : Skill)
    (hs : s ∈ IndeedParser.extract_skills_from_text text) :
    s.is_required = LinkedInParser.req_words.any (fun w => strHas text w) := by
  unfold IndeedParser.extract_skills_from_text at hs
  simp only [List.mem_map] at hs
  obtain ⟨skill, _, rfl⟩ := hs
  rfl

/-! ## Claim theorems -/

/-- C1, counterexample: a request whose URL the Dispatcher resolves to the
LinkedIn Parser is nevertheless routed to the Generic Analyzer when it
carries no `rawHTML` — the Parser being selected does not suffice for the
Parser to run. -/
theorem c1_counterexample :
    JobParserFactory.getParser Inputs.reqNoHtml.url = some ParserKind.linkedin ∧
    analysisPath Inputs.reqNoHtml = AnalysisPath.genericPath := by
  constructor <;> rfl

/-- C1, amended: the selected Parser runs exclusively iff the request also
supplies truthy `rawHTML`; otherwise (no `rawHTML`, or no Parser selected)
the Generic Analyzer runs over the content. -/
theorem c1_theorem :
    ∀ (req : JobPostingRequest) (p : ParserKind),
      (JobParserFactory.getParser req.url = some p → pyTruthy req.rawHTML = true →
        analysisPath req = AnalysisPath.parserPath p) ∧
      (pyTruthy req.rawHTML = false → analysisPath req = AnalysisPath.genericPath) ∧
      (JobParserFactory.getParser req.url = none →
        analysisPath req = AnalysisPath.genericPath) := by
  intro req p
  refine ⟨fun h1 h2 => ?_, fun h2 => ?_, fun h1 => ?_⟩
  · simp [analysisPath, h1, h2]
  · unfold analysisPath
    cases JobParserFactory.getParser req.url <;> simp [h2]
  · simp [analysisPath, h1]

/-- C1, witness: the amended routing on concrete requests. -/
theorem c1_witness :
    analysisPath Inputs.reqHtml = AnalysisPath.parserPath ParserKind.linkedin ∧
    analysisPath Inputs.reqBlog = AnalysisPath.genericPath :=
  ⟨(c1_theorem Inputs.reqHtml ParserKind.linkedin).1 (by decide) (by decide),
   (c1_theorem Inputs.reqBlog ParserKind.linkedin).2.2 (by decide)⟩

/-- C2, counterexample: the LinkedIn Parser path emits
`confidenceScores["parsing"] = 0.95`, which exceeds 0.9 — so not every
extraction path keeps its confidence values inside [0.0, 0.9]. -/
theorem c2_counterexample :
    dictGet (LinkedInParser.parse Inputs.soupEmpty none).confidence_scores
      "parsing" = some 0.95 ∧
    ¬((0.95 : ℚ) ≤ 9/10) := by
  constructor
  · have h1 : dictGet (LinkedInParser.parse Inputs.soupEmpty none).confidence_scores
        "parsing" = some (95/100) := rfl
    rw [h1]
    norm_num
  · norm_num

/-- C2, amended: every value the Generic Analyzer's confidence calculation
produces lies in [0.0, 0.9]; the site-specific Parsers instead always emit
the single fixed score parsing = 0.95, which lies outside that interval. -/
theorem c2_theorem :
    (∀ (rd : JobAnalyzer.ResultDict) (p : String × ℚ),
      p ∈ JobAnalyzer.calculate_confidence_scores rd → 0 ≤ p.2 ∧ p.2 ≤ 9/10) ∧
    (∀ (soup : Soup) (url : Option String),
      (LinkedInParser.parse soup url).confidence_scores = [("parsing", 95/100)] ∧
      (IndeedParser.parse soup url).confidence_scores = [("parsing", 95/100)]) := by
  constructor
  · intro rd p hp
    simp only [JobAnalyzer.calculate_confidence_scores, List.mem_cons,
      List.not_mem_nil, or_false] at hp
    rcases hp with h | h | h | h <;> subst h
    · constructor <;> dsimp only <;> split_ifs <;> norm_num
    · constructor <;> dsimp only <;> split_ifs <;> norm_num
    · exact ⟨le_min (by norm_num) (by positivity), min_le_left _ _⟩
    · exact ⟨le_min (by norm_num) (by positivity), min_le_left _ _⟩
  · intro soup url
    exact ⟨rfl, rfl⟩

/-- C2, witness: the bound applied to a concrete score of the Generic
Analyzer (the company-name entry of a result with a present company). -/
theorem c2_witness :
    0 ≤ (if pyTruthy Inputs.rdCompany.company_name then (8 : ℚ)/10 else 0) ∧
    (if pyTruthy Inputs.rdCompany.company_name then (8 : ℚ)/10 else 0) ≤ 9/10 :=
  c2_theorem.1 Inputs.rdCompany
    ("company_name", if pyTruthy Inputs.rdCompany.company_name then 8/10 else 0)
    (List.mem_cons_self _ _)

/-- C3: on every document and URL, both site-specific Parsers return a
confidence mapping whose sole entry binds "parsing" to exactly 0.95. -/
theorem c3_theorem :
    ∀ (soup : Soup) (url : Option String),
      dictGet (LinkedInParser.parse soup url).confidence_scores "parsing" =
        some 0.95 ∧
      dictGet (IndeedParser.parse soup url).confidence_scores "parsing" =
        some 0.95 ∧
      (LinkedInParser.parse soup url).confidence_scores = [("parsing", 95/100)] ∧
      (IndeedParser.parse soup url).confidence_scores = [("parsing", 95/100)] := by
  intro soup url
  have h1 : dictGet (LinkedInParser.parse soup url).confidence_scores "parsing" =
      some (95/100) := rfl
  have h2 : dictGet (IndeedParser.parse soup url).confidence_scores "parsing" =
      some (95/100) := rfl
  refine ⟨?_, ?_, rfl, rfl⟩
  · rw [h1]; norm_num
  · rw [h2]; norm_num

/-- C4: every Generic Analyzer output carries exactly the documented
confidence formulas: companyName 0.8/0.0 by presence, jobTitle 0.9/0.0 by
presence, skills `min(0.9, 0.1·count)` and keywords `min(0.9, 0.05·count)`
computed from the very lists it returns (so in particular for every count
0 through 20). -/
theorem c4_theorem :
    ∀ (env : JobAnalyzer.AnalyzerEnv) (content : String)
      (url title guess : Option String) (resp : JobAnalysisResponse),
      JobAnalyzer.analyze env content url title guess = Except.ok resp →
      dictGet resp.confidence_scores "company_name" =
        some (if pyTruthy resp.company_name then 8/10 else 0) ∧
      dictGet resp.confidence_scores "job_title" =
        some (if pyTruthy resp.job_title then 9/10 else 0) ∧
      dictGet resp.confidence_scores "skills" =
        some (min (9/10) ((resp.skills.length : ℚ) * (1/10))) ∧
      dictGet resp.confidence_scores "keywords" =
        some (min (9/10) ((resp.keywords.length : ℚ) * (5/100))) := by
  intro env content url title guess resp h
  unfold JobAnalyzer.analyze at h
  split at h
  · exact absurd h (by simp)
  · injection h with h
    subst h
    exact ⟨rfl, rfl, rfl, rfl⟩

/-- C4, witness: the formulas on a concrete Generic Analyzer run. -/
theorem c4_witness :
    dictGet Inputs.respPlain.confidence_scores "skills" =
      some (min (9/10) ((Inputs.respPlain.skills.length : ℚ) * (1/10))) ∧
    dictGet Inputs.respPlain.confidence_scores "keywords" =
      some (min (9/10) ((Inputs.respPlain.keywords.length : ℚ) * (5/100))) :=
  have hs : JobAnalyzer.extract_skills_and_experience Inputs.envOneSkill
      Inputs.contentPlain =
      Except.ok [{ name := "python", years_experience := none,
                   is_required := false }] := rfl
  have h : JobAnalyzer.analyze Inputs.envOneSkill Inputs.contentPlain
      none none none = Except.ok Inputs.respPlain := by
    unfold Inputs.respPlain
    cases ha : JobAnalyzer.analyze Inputs.envOneSkill Inputs.contentPlain
        none none none with
    | ok r => rfl
    | error e =>
      exfalso
      unfold JobAnalyzer.analyze at ha
      rw [hs] at ha
      simp at ha
  ⟨(c4_theorem _ _ _ _ _ _ h).2.2.1, (c4_theorem _ _ _ _ _ _ h).2.2.2⟩

/-- C5: the company-name fallback chain runs its four methods in fixed
precedence — JSON-LD structured data, CSS locators, meta tags and page
title, free-text patterns — each later method only when every earlier one
produced nothing, and yields nothing when all four fail. -/
theorem c5_theorem :
    ∀ (soup : Soup),
      (∀ c, LinkedInParser.extract_from_json_ld soup = some c →
        LinkedInParser.extract_company_name soup = some c) ∧
      (LinkedInParser.extract_from_json_ld soup = none →
        ∀ c, LinkedInParser.extract_from_css_selectors soup = some c →
          LinkedInParser.extract_company_name soup = some c) ∧
      (LinkedInParser.extract_from_json_ld soup = none →
        LinkedInParser.extract_from_css_selectors soup = none →
        ∀ c, LinkedInParser.extract_from_meta_tags soup = some c →
          LinkedInParser.extract_company_name soup = some c) ∧
      (LinkedInParser.extract_from_json_ld soup = none →
        LinkedInParser.extract_from_css_selectors soup = none →
        LinkedInParser.extract_from_meta_tags soup = none →
        LinkedInParser.extract_company_name soup =
          LinkedInParser.extract_from_text_patterns soup) := by
  intro soup
  refine ⟨fun c h1 => ?_, fun h1 c h2 => ?_, fun h1 h2 c h3 => ?_,
    fun h1 h2 h3 => ?_⟩ <;>
    unfold LinkedInParser.extract_company_name
  · rw [h1]
  · rw [h1, h2]
  · rw [h1, h2, h3]
  · rw [h1, h2, h3]
    cases LinkedInParser.extract_from_text_patterns soup <;> rfl

/-- C5, witness: on a document carrying both a valid JSON-LD company field
("Acme") and a conflicting free-text `company: Evil Corp` match, the
structured-metadata value wins. -/
theorem c5_witness :
    LinkedInParser.extract_from_text_patterns Inputs.soupC5 = some "Evil Corp" ∧
    LinkedInParser.extract_company_name Inputs.soupC5 = some "Acme" :=
  ⟨by decide, (c5_theorem Inputs.soupC5).1 "Acme" (by decide)⟩

set_option maxRecDepth 100000 in
/-- C6, counterexample: the claim says both paths decide the required flag
from a bounded window around the skill mention.  On a description whose
only "required" sits 61 words after the single "python" mention — outside
every 50-word window — the LinkedIn Parser still marks Python required
(it scans the whole text), while the Generic Analyzer's windowed
`is_skill_required` does not. -/
theorem c6_counterexample :
    LinkedInParser.extract_skills Inputs.soupFarRequired =
      [{ name := "Python", years_experience := none, is_required := true }] ∧
    strHas (pyLower (JobAnalyzer.get_context_around_skill
      Inputs.textFarRequired "python")) "required" = false ∧
    JobAnalyzer.is_skill_required Inputs.textFarRequired "python" = false := by
  refine ⟨?_, ?_, ?_⟩ <;> decide

/-- C6, amended: only the Generic Analyzer path decides the required flag
from the bounded 50-word window around the first mention; the Parser path
decides it by searching the entire description text for its required
indicators.  In both paths a preferred indicator never sets the flag. -/
theorem c6_theorem :
    ∀ (text skill : String) (soup : Soup) (s : Skill),
      (JobAnalyzer.is_skill_required text skill =
        JobAnalyzer.required_indicators.any (fun ind =>
          strHas (pyLower (JobAnalyzer.get_context_around_skill text skill)) ind)) ∧
      (s ∈ LinkedInParser.extract_skills soup →
        s.is_required = LinkedInParser.req_words.any (fun w =>
          strHas (LinkedInParser.descTextLower soup) w)) := by
  intro text skill soup s
  exact ⟨rfl, linkedin_skills_required soup s⟩

/-- C6, witness: a skill whose context holds "nice to have" and no required
indicator is not marked required on either path. -/
theorem c6_witness :
    JobAnalyzer.is_skill_required Inputs.textNiceToHave "python" = false ∧
    Inputs.skillNotRequired.is_required = false ∧
    Inputs.skillNotRequired ∈ LinkedInParser.extract_skills Inputs.soupNiceToHave :=
  ⟨((c6_theorem Inputs.textNiceToHave "python" Inputs.soupNiceToHave
      Inputs.skillNotRequired).1).trans (by decide),
   (((c6_theorem Inputs.textNiceToHave "python" Inputs.soupNiceToHave
      Inputs.skillNotRequired).2) (by decide)).trans (by decide),
   by decide⟩

/-- C7: the URL scorer returns 0 on any job-board URL and on any
candidate with no career keyword in URL or title; otherwise it adds the
fixed points (50/75/40/60, each becoming 60/90/48/72 under the 1.2 targeted
multiplier) plus the flat targeted bonus 30; and the best-URL selection
picks the first maximum of the positively-scored candidates, accepting it
only at 30 (targeted) / 50 (broad). -/
theorem c7_theorem :
    (∀ (url title snippet cname : String) (mode : Bool),
      CareerPageFinder.job_boards.any (fun b => strHas (pyLower url) b) = true →
      CareerPageFinder.score_career_url url title snippet cname mode = 0) ∧
    (∀ (url title snippet cname : String) (mode : Bool),
      CareerPageFinder.career_keywords.any (fun k =>
        strHas (pyLower url) k || strHas (pyLower title) k) = false →
      CareerPageFinder.score_career_url url title snippet cname mode = 0) ∧
    (∀ (url title snippet cname : String) (mode : Bool),
      url ≠ "" →
      CareerPageFinder.job_boards.any (fun b => strHas (pyLower url) b) = false →
      CareerPageFinder.career_keywords.any (fun k =>
        strHas (pyLower url) k || strHas (pyLower title) k) = true →
      CareerPageFinder.score_career_url url title snippet cname mode =
        (if ["career", "jobs", "hiring"].any (fun t => strHas (pyLower url) t)
          then if mode then 60 else 50 else 0) +
        (if strHas (pyLower title)
            (pyLower (CareerPageFinder.clean_company_name cname))
          then if mode then 90 else 75 else 0) +
        (if CareerPageFinder.career_patterns.any (fun p => strHas (pyLower url) p)
          then if mode then 48 else 40 else 0) +
        (if CareerPageFinder.official_indicators.any
            (fun i => strHas (pyLower title) i)
          then if mode then 72 else 60 else 0) +
        (if mode then 30 else 0)) ∧
    (∀ (results : List CareerPageFinder.SearchResult) (cname : String)
      (mode : Bool) (b : CareerPageFinder.ScoredResult),
      CareerPageFinder.find_best_career_url results cname mode = some b →
      b.score ≥ (if mode then 30 else 50) ∧
      ∃ pre post,
        CareerPageFinder.scoredCandidates results cname mode = pre ++ b :: post ∧
        (∀ y ∈ pre, y.score < b.score) ∧ (∀ y ∈ post, y.score ≤ b.score)) ∧
    (∀ (results : List CareerPageFinder.SearchResult) (cname : String)
      (mode : Bool),
      CareerPageFinder.find_best_career_url results cname mode = none →
      ∀ y ∈ CareerPageFinder.scoredCandidates results cname mode,
        y.score < (if mode then 30 else 50)) := by
  have hf50 : (⌊(50 : ℚ) * (12/10)⌋ : Int) = 60 := by norm_num
  have hf75 : (⌊(75 : ℚ) * (12/10)⌋ : Int) = 90 := by norm_num
  have hf40 : (⌊(40 : ℚ) * (12/10)⌋ : Int) = 48 := by norm_num
  have hf60 : (⌊(60 : ℚ) * (12/10)⌋ : Int) = 72 := by norm_num
  refine ⟨?_, ?_, ?_, ?_, ?_⟩
  · intro url title snippet cname mode hb
    by_cases hu : url = ""
    · simp [CareerPageFinder.score_career_url, hu]
    · simp [CareerPageFinder.score_career_url, hu, hb]
  · intro url title snippet cname mode hc
    by_cases hu : url = ""
    · simp [CareerPageFinder.score_career_url, hu]
    · by_cases hb : CareerPageFinder.job_boards.any
          (fun b => strHas (pyLower url) b)
      · simp [CareerPageFinder.score_career_url, hu, hb]
      · simp [CareerPageFinder.score_career_url, hu, hb, hc]
  · intro url title snippet cname mode hne hb hc
    unfold CareerPageFinder.score_career_url
    rw [if_neg hne]
    simp only [hb, hc, Bool.false_eq_true, if_false, Bool.not_true, Bool.not_false,
      if_true]
    cases mode <;> simp [hf50, hf75, hf40, hf60]
  · intro results cname mode b h
    cases hc : CareerPageFinder.scoredCandidates results cname mode with
    | nil => rw [find_best_nil results cname mode hc] at h; exact absurd h (by simp)
    | cons x xs =>
      rw [find_best_cons x xs results cname mode hc] at h
      by_cases hth : (xs.foldl CareerPageFinder.stepMax x).score ≥
          (if mode then 30 else 50)
      · rw [if_pos hth] at h
        injection h with h
        subst h
        obtain ⟨pre, post, hsplit, hpre, hpost⟩ := foldl_stepMax_split xs x
        exact ⟨hth, pre, post, hsplit, hpre, hpost⟩
      · rw [if_neg hth] at h
        exact absurd h (by simp)
  · intro results cname mode h y hy
    cases hc : CareerPageFinder.scoredCandidates results cname mode with
    | nil => rw [hc] at hy; exact absurd hy (List.not_mem_nil y)
    | cons x xs =>
      rw [find_best_cons x xs results cname mode hc] at h
      rw [hc] at hy
      by_cases hth : (xs.foldl CareerPageFinder.stepMax x).score ≥
          (if mode then 30 else 50)
      · rw [if_pos hth] at h
        exact absurd h (by simp)
      · obtain ⟨pre, post, hsplit, hpre, hpost⟩ := foldl_stepMax_split xs x
        have hle : y.score ≤ (xs.foldl CareerPageFinder.stepMax x).score := by
          rw [hsplit] at hy
          rcases List.mem_append.mp hy with hy | hy
          · exact le_of_lt (hpre y hy)
          · rcases List.mem_cons.mp hy with rfl | hy
            · exact le_refl _
            · exact hpost y hy
        exact lt_of_le_of_lt hle (lt_of_not_ge hth)

/-- C7, witness: the aggregator URL from the spec scores 0, a fully
qualifying targeted candidate scores 60+90+48+72+30 = 300, and on two
tied broad candidates (150 each) the first-seen one is selected. -/
theorem c7_witness :
    CareerPageFinder.score_career_url Inputs.aggregatorUrl
      "Careers at Acme" "" "Acme" true = 0 ∧
    CareerPageFinder.score_career_url "https://acme.com/careers"
      "Careers at Acme" "" "Acme Inc" true = 300 ∧
    CareerPageFinder.find_best_career_url Inputs.resultsTwo "Zed" false =
      some { score := 150, url := "https://a.com/careers",
             title := "Careers at A" } := by
  have h1 : CareerPageFinder.score_career_url "https://a.com/careers"
      "Careers at A" "" "Zed" false = 150 :=
    (c7_theorem.2.2.1 "https://a.com/careers" "Careers at A" "" "Zed" false
      (by decide) (by decide) (by decide)).trans (by decide)
  have h2 : CareerPageFinder.score_career_url "https://b.com/careers"
      "Careers at B" "" "Zed" false = 150 :=
    (c7_theorem.2.2.1 "https://b.com/careers" "Careers at B" "" "Zed" false
      (by decide) (by decide) (by decide)).trans (by decide)
  refine ⟨c7_theorem.1 Inputs.aggregatorUrl "Careers at Acme" "" "Acme" true
      (by decide),
    (c7_theorem.2.2.1 "https://acme.com/careers" "Careers at Acme" "" "Acme Inc"
      true (by decide) (by decide) (by decide)).trans (by decide), ?_⟩
  unfold CareerPageFinder.find_best_career_url CareerPageFinder.scoredCandidates
    Inputs.resultsTwo
  simp only [List.filterMap, h1, h2]
  norm_num [CareerPageFinder.stepMax]

/-- C8: a raised resolver call and an empty resolver answer are both
swallowed — the analysis result is returned unchanged (still successful,
`companyUrl` left unset) — and the resolver finding nothing at every step
(cache miss, no Clearbit domain, empty searches) is the normal `none`
outcome, not an error. -/
theorem c8_theorem :
    (∀ (result : JobAnalysisResponse) (msg : String),
      enrich_with_career_page result (.raised msg) = result) ∧
    (∀ (result : JobAnalysisResponse),
      enrich_with_career_page result (.ok none) = result) ∧
    (∀ (result : JobAnalysisResponse) (outcome : ResolverOutcome),
      (enrich_with_career_page result outcome).success = result.success) ∧
    (∀ (env : CareerPageFinder.FinderEnv) (cname : String) (fr : Bool),
      env.cachedFresh = none →
      (∀ q, env.googleSearch q = []) →
      CareerPageFinder.find_career_page env cname fr = none) := by
  refine ⟨?_, ?_, ?_, ?_⟩
  · intro result msg
    unfold enrich_with_career_page
    split_ifs <;> rfl
  · intro result
    unfold enrich_with_career_page
    split_ifs <;> rfl
  · intro result outcome
    unfold enrich_with_career_page
    split_ifs <;> cases outcome with
      | ok o => cases o <;> rfl
      | raised m => rfl
  · intro env cname fr hcache hsearch
    unfold CareerPageFinder.find_career_page
    rw [hcache]
    have htarget : ∀ d, CareerPageFinder.targeted_google_search env cname d = none := by
      intro d
      unfold CareerPageFinder.targeted_google_search
      simp [List.findSome?, hsearch]
    have hbroad : CareerPageFinder.broad_google_search env cname = none := by
      unfold CareerPageFinder.broad_google_search
      simp [List.findSome?, hsearch]
    cases hfr : (if fr then none else env.cachedFresh) with
    | some c => rw [hcache] at hfr; cases fr <;> simp_all
    | none =>
      cases hd : env.clearbitDomain <;> simp [htarget, hbroad]

/-- C8, witness: the swallowing behaviour on concrete inputs. -/
theorem c8_witness :
    CareerPageFinder.find_career_page Inputs.envNothing "Acme" false = none ∧
    enrich_with_career_page Inputs.resultAcme (.raised "boom") =
      Inputs.resultAcme ∧
    (enrich_with_career_page Inputs.resultAcme (.ok none)).success = true :=
  ⟨c8_theorem.2.2.2 Inputs.envNothing "Acme" false rfl (fun _ => rfl),
   c8_theorem.1 Inputs.resultAcme "boom",
   (c8_theorem.2.2.1 Inputs.resultAcme (.ok none)).trans rfl⟩

/-- C9: Parser selection is a function of the URL alone (it is a pure Lean
function by construction): it returns nothing for an absent (or empty,
Python-falsy) URL, otherwise the first registered parser — LinkedIn before
Indeed — whose domain-substring predicate accepts the URL's host; and
`can_parse_format` holds exactly when `getParser` returns a parser. -/
theorem c9_theorem :
    JobParserFactory.getParser none = none ∧
    JobParserFactory.getParser (some "") = none ∧
    (∀ u : String,
      JobParserFactory.getParser (some u) =
        if u = "" then none
        else if LinkedInParser.can_parse u then some ParserKind.linkedin
        else if IndeedParser.can_parse u then some ParserKind.indeed
        else none) ∧
    (∀ url : Option String,
      JobParserFactory.can_parse_format url =
        (JobParserFactory.getParser url).isSome) ∧
    (∀ u : String,
      LinkedInParser.can_parse u =
        (u ≠ "" && strHas (pyLower (netloc u)) "linkedin.com")) ∧
    (∀ u : String,
      IndeedParser.can_parse u =
        (u ≠ "" && strHas (pyLower (netloc u)) "indeed.com")) := by
  refine ⟨rfl, rfl, fun u => ?_, fun url => rfl, fun u => ?_, fun u => ?_⟩
  · by_cases h : u = ""
    · simp [JobParserFactory.getParser, h]
    · simp only [JobParserFactory.getParser, JobParserFactory.parsers, h,
        if_false, List.find?]
      by_cases h1 : LinkedInParser.can_parse u <;>
        by_cases h2 : IndeedParser.can_parse u <;>
        simp [JobParserFactory.can_parse, h1, h2]
  · by_cases h : u = "" <;> simp [LinkedInParser.can_parse, h]
  · by_cases h : u = "" <;> simp [IndeedParser.can_parse, h]

/-- C10: within one Parser output all skills carry the same required flag:
each flag equals the fixed whole-description check — true exactly when
"required", "must have" or "essential" occurs in the lower-cased
description text — independent of the skill and of where the phrase
appears. -/
theorem c10_theorem :
    ∀ (soup : Soup) (url : Option String) (s t : Skill),
      (s ∈ (LinkedInParser.parse soup url).skills →
        s.is_required = LinkedInParser.req_words.any (fun w =>
          strHas (LinkedInParser.descTextLower soup) w)) ∧
      (s ∈ (IndeedParser.parse soup url).skills →
        s.is_required = LinkedInParser.req_words.any (fun w =>
          strHas (IndeedParser.descTextLower soup) w)) ∧
      (s ∈ (LinkedInParser.parse soup url).skills →
        t ∈ (LinkedInParser.parse soup url).skills →
        s.is_required = t.is_required) ∧
      (s ∈ (IndeedParser.parse soup url).skills →
        t ∈ (IndeedParser.parse soup url).skills →
        s.is_required = t.is_required) := by
  intro soup url s t
  have hL : ∀ (x : Skill), x ∈ LinkedInParser.extract_skills soup →
      x.is_required = LinkedInParser.req_words.any (fun w =>
        strHas (LinkedInParser.descTextLower soup) w) :=
    fun x hx => linkedin_skills_required soup x hx
  have hI : ∀ (x : Skill),
      x ∈ IndeedParser.extract_skills_from_text (IndeedParser.descTextLower soup) →
      x.is_required = LinkedInParser.req_words.any (fun w =>
        strHas (IndeedParser.descTextLower soup) w) :=
    fun x hx => indeed_skills_required (IndeedParser.descTextLower soup) x hx
  exact ⟨fun hs => hL s hs, fun hs => hI s hs,
    fun hs ht => (hL s hs).trans (hL t ht).symm,
    fun hs ht => (hI s hs).trans (hI t ht).symm⟩

/-- C10, witness: both skills of a two-skill description carry the same
flag, true, because "required" occurs in the description. -/
theorem c10_witness :
    Inputs.skillPythonReq ∈ (IndeedParser.parse Inputs.soupTwoSkills none).skills ∧
    Inputs.skillSqlReq ∈ (IndeedParser.parse Inputs.soupTwoSkills none).skills ∧
    Inputs.skillPythonReq.is_required = Inputs.skillSqlReq.is_required ∧
    Inputs.skillPythonReq.is_required = true :=
  ⟨by decide, by decide,
   (c10_theorem Inputs.soupTwoSkills none Inputs.skillPythonReq
      Inputs.skillSqlReq).2.2.2 (by decide) (by decide),
   ((c10_theorem Inputs.soupTwoSkills none Inputs.skillPythonReq
      Inputs.skillSqlReq).2.1 (by decide)).trans (by decide)⟩

end JobScanner
